import Mathlib

/-!
Verification development for the retrieval-augmented conversational agent
repository: shallow embedding of the streaming chat client, stream event
processor, title generator fallback, retrieval tool and ingestion pipeline
definition, together with theorems settling the specification claims.
-/

/-! ## Python-style dictionaries (string-keyed, insertion-ordered) -/

/-- A value stored in a feedback dictionary: either a string (such as one of the
five emoji) or an exact numeric score. -/
inductive FVal where
  | str : String → FVal
  | num : ℚ → FVal
deriving DecidableEq, Repr

/-- A Python dict with string keys, modelled as an insertion-ordered
association list without duplicate keys in any state the program builds. -/
abbrev Dict := List (String × FVal)

/-- Errors the embedded Python code can raise. -/
inductive PyErr where
  | keyError : String → PyErr
  | valueError : String → PyErr
deriving DecidableEq, Repr

/-- Dictionary lookup: value at the first occurrence of the key, if any. -/
def getKey : Dict → String → Option FVal
  | [], _ => none
  | kv :: rest, k => if kv.1 = k then some kv.2 else getKey rest k

/-- Key-membership test, as Python in-operator on dicts. -/
def hasKey (d : Dict) (k : String) : Bool := (getKey d k).isSome

/-- Dictionary assignment: replace the value at an existing key in place,
otherwise append the binding at the end, as Python dict assignment does. -/
def setKey : Dict → String → FVal → Dict
  | [], k, v => [(k, v)]
  | kv :: rest, k, v => if kv.1 = k then (k, v) :: rest else kv :: setKey rest k v

/-- Remove every binding of the key. On duplicate-free dicts this is the
effect of a successful Python pop. -/
def eraseKey : Dict → String → Dict
  | [], _ => []
  | kv :: rest, k => if kv.1 = k then eraseKey rest k else kv :: eraseKey rest k

/-- Python d.pop(k) without a default: the dict without the key when the key
is present, and none (a KeyError) when it is absent. -/
def popKey (d : Dict) (k : String) : Option Dict :=
  match getKey d k with
  | some _ => some (eraseKey d k)
  | none => none

theorem getKey_setKey_self (d : Dict) (k : String) (v : FVal) :
    getKey (setKey d k v) k = some v := by
  induction d with
  | nil => simp [setKey, getKey]
  | cons kv rest ih =>
    by_cases h : kv.1 = k
    · simp [setKey, getKey, h]
    · simp [setKey, getKey, h, ih]

theorem getKey_setKey_ne (d : Dict) (k k2 : String) (v : FVal) (h : k ≠ k2) :
    getKey (setKey d k2 v) k = getKey d k := by
  have h2 : k2 ≠ k := Ne.symm h
  induction d with
  | nil => simp [setKey, getKey, h2]
  | cons kv rest ih =>
    by_cases hk : kv.1 = k2
    · simp [setKey, getKey, hk, h2]
    · by_cases hk2 : kv.1 = k
      · simp [setKey, getKey, hk, hk2, h, h2]
      · simp [setKey, getKey, hk, hk2, ih]

theorem hasKey_setKey_ne (d : Dict) (k k2 : String) (v : FVal) (h : k ≠ k2) :
    hasKey (setKey d k2 v) k = hasKey d k := by
  simp [hasKey, getKey_setKey_ne d k k2 v h]

theorem getKey_eraseKey_ne (d : Dict) (k k2 : String) (h : k ≠ k2) :
    getKey (eraseKey d k2) k = getKey d k := by
  have h2 : k2 ≠ k := Ne.symm h
  induction d with
  | nil => simp [eraseKey]
  | cons kv rest ih =>
    by_cases hk : kv.1 = k2
    · simp [eraseKey, getKey, hk, h2, ih]
    · by_cases hk2 : kv.1 = k
      · simp [eraseKey, getKey, hk, hk2, h, h2]
      · simp [eraseKey, getKey, hk, hk2, ih]

theorem getKey_eraseKey_self (d : Dict) (k : String) :
    getKey (eraseKey d k) k = none := by
  induction d with
  | nil => simp [eraseKey, getKey]
  | cons kv rest ih =>
    by_cases hk : kv.1 = k
    · simp [eraseKey, hk, ih]
    · simp [eraseKey, getKey, hk, ih]

theorem hasKey_iff_getKey (d : Dict) (k : String) :
    hasKey d k = true ↔ ∃ v, getKey d k = some v := by
  simp [hasKey, Option.isSome_iff_exists]

/-! ## Streaming chat client: construction state and feedback logging
(frontend/utils/stream_handler.py, class Client) -/

/-- The attributes of a constructed Client relevant to feedback logging:
self.url (None unless the HTTP backend was selected), the request
authentication flag and identity token of the HTTP backend, and self.agent
(the local instance or remote reasoning-engine handle, None for the HTTP
backend). -/
structure ClientState where
  url : Option String
  authenticate_request : Bool
  id_token : Option String
  agent : Option String
deriving DecidableEq, Repr

/-- Python truthiness of an optional string attribute: None and the empty
string are falsy. -/
def str_truthy : Option String → Bool
  | none => false
  | some s => !(s == "")

/-- Python urllib.parse.urljoin restricted to the shapes the client uses:
a falsy base returns the relative reference unchanged, otherwise the last
path segment of the base is replaced by the reference. -/
def urljoin (base : Option String) (rel : String) : String :=
  match base with
  | none => rel
  | some b => if b = "" then rel else b.dropRightWhile (fun c => c ≠ '/') ++ rel

/-- The emoji-to-score replacement chain of Client.log_feedback: each of the
five recognized emoji strings is replaced by its exact numeric score, and any
other value is left unchanged. -/
def normalize_score (v : FVal) : FVal :=
  if v = .str "😞" then .num 0
  else if v = .str "🙁" then .num 0.25
  else if v = .str "😐" then .num 0.5
  else if v = .str "🙂" then .num 0.75
  else if v = .str "😀" then .num 1
  else v

/-- The payload-normalization part of Client.log_feedback: read and replace
the score, attach the run id, set the log type, and pop the generic type
field (a KeyError when a required key is absent). -/
def normalize_feedback (feedback_dict : Dict) (run_id : String) : Except PyErr Dict :=
  match getKey feedback_dict "score" with
  | none => .error (.keyError "score")
  | some score =>
    let d := setKey feedback_dict "score" (normalize_score score)
    let d := setKey d "run_id" (.str run_id)
    let d := setKey d "log_type" (.str "feedback")
    match popKey d "type" with
    | some d2 => .ok d2
    | none => .error (.keyError "type")

/-- The observable delivery action of Client.log_feedback: an HTTP POST of the
payload to the feedback endpoint with the constructed headers, or delegation
to the agent handle feedback-registration method. -/
inductive FeedbackAction where
  | httpPost (url : String) (payload : Dict) (headers : List (String × String))
  | registerFeedback (payload : Dict)
deriving DecidableEq, Repr

/-- Client.log_feedback: normalize the payload, then deliver it through the
HTTP backend when self.url is truthy, else through the agent handle, else
raise the configuration ValueError. -/
def log_feedback (c : ClientState) (feedback_dict : Dict) (run_id : String) :
    Except PyErr FeedbackAction :=
  match normalize_feedback feedback_dict run_id with
  | .error e => .error e
  | .ok d =>
    if str_truthy c.url then
      let u := urljoin c.url "feedback"
      let headers := [("Content-Type", "application/json")] ++
        (if c.authenticate_request then
          [("Authorization", "Bearer " ++ (c.id_token.getD "None"))]
         else [])
      .ok (.httpPost u d headers)
    else
      match c.agent with
      | some _ => .ok (.registerFeedback d)
      | none => .error (.valueError "No agent or URL configured for feedback logging")

/-! ## Streaming chat client: HTTP event stream parsing
(frontend/utils/stream_handler.py, Client.stream_messages, url branch) -/

/-- The line loop of Client.stream_messages on the HTTP backend: iterate the
response body lines, skip falsy (empty) lines, decode each remaining line as
JSON and yield the event, and skip (with only a logged warning) every line
the decoder rejects. The JSON decoder is passed as a function so that the
loop itself is exactly the code under verification. -/
def stream_messages {E : Type} (decode : String → Option E) : List String → List E
  | [] => []
  | line :: rest =>
    if line = "" then stream_messages decode rest
    else
      match decode line with
      | some event => event :: stream_messages decode rest
      | none => stream_messages decode rest

/-! ## Stream event processor
(frontend/utils/stream_handler.py, class EventProcessor) -/

/-- A structured tool-call request carried by an assistant message: name,
rendered arguments and call id. -/
structure ToolCall where
  name : String
  args : String
  id : String
deriving DecidableEq, Repr

/-- A message in the session history: an assistant message (content, tool
calls, optional id, additional kwargs), a tool-result message, or a human
message. -/
inductive ChatMessage where
  | ai (content : String) (tool_calls : List ToolCall) (id : Option String)
      (additional_kwargs : List (String × String))
  | toolResult (content : String) (tool_call_id : String)
  | human (content : String)
deriving DecidableEq, Repr

/-- The kwargs payload of a constructor-shaped stream event: the fields the
processor inspects, each optional exactly as dict.get is used in the code. -/
structure KwMsg where
  tool_calls : List ToolCall
  tool_call_id : Option String
  content : Option String
deriving DecidableEq, Repr

/-- One element of the stream consumed by EventProcessor.process_events: the
message half of the (message, metadata) pair, either a dict of type
constructor carrying kwargs, or anything else (ignored by the loop body). -/
inductive StreamMsg where
  | constructorMsg (kwargs : KwMsg)
  | otherMsg
deriving DecidableEq, Repr

/-- The mutable state of one EventProcessor run together with its
StreamHandler display: the accumulated visible answer, the buffered
tool-call and tool-result messages, and the two additive display regions. -/
structure EPState where
  final_content : String
  tool_calls : List ChatMessage
  text : String
  tools_logs : String
deriving DecidableEq, Repr

/-- The status line posted for one requested tool call. -/
def tool_call_status (tc : ToolCall) : String :=
  "\n\nCalling tool: `" ++ tc.name ++ "` with args: `" ++ tc.args ++ "`"

/-- Tool-call branch of the event loop: buffer one assistant message with
empty content carrying the tool calls and post one status line per call. -/
def apply_tool_calls (s : EPState) (tcs : List ToolCall) : EPState :=
  { s with
    tool_calls := s.tool_calls ++ [ChatMessage.ai "" tcs none []],
    tools_logs := s.tools_logs ++ String.join (tcs.map tool_call_status) }

/-- Tool-result branch of the event loop: buffer one tool-result message and
post its status line; reading the content field raises a KeyError when it is
absent, as the subscript access in the code does. -/
def apply_tool_result (s : EPState) (k : KwMsg) : Except PyErr EPState :=
  match k.content, k.tool_call_id with
  | some content, some tcid =>
    .ok { s with
          tool_calls := s.tool_calls ++ [ChatMessage.toolResult content tcid],
          tools_logs := s.tools_logs ++ "\n\nTool response: `" ++ content ++ "`" }
  | none, _ => .error (.keyError "content")
  | _, none => .error (.keyError "tool_call_id")

/-- Content branch of the event loop: a truthy content token is appended to
the accumulated answer and pushed to the display; a falsy one does nothing. -/
def apply_content (s : EPState) (k : KwMsg) : EPState :=
  match k.content with
  | some c => if c = "" then s else { s with final_content := s.final_content ++ c,
                                             text := s.text ++ c }
  | none => s

/-- The body of the event loop of EventProcessor.process_events for one
stream element: non-constructor messages are ignored; a constructor message
is dispatched on a truthy tool_calls field first, then a truthy tool_call_id
field, then a truthy content field. -/
def process_event (s : EPState) (m : StreamMsg) : Except PyErr EPState :=
  match m with
  | .otherMsg => .ok s
  | .constructorMsg k =>
    if !k.tool_calls.isEmpty then .ok (apply_tool_calls s k.tool_calls)
    else if str_truthy k.tool_call_id then apply_tool_result s k
    else .ok (apply_content s k)

/-- Run the event loop over the whole stream from a given state. -/
def run_events (s : EPState) : List StreamMsg → Except PyErr EPState
  | [] => .ok s
  | m :: rest =>
    match process_event s m with
    | .ok s2 => run_events s2 rest
    | .error e => .error e

/-- The initial processor state: empty answer, empty buffer, empty display. -/
def init_ep_state : EPState :=
  { final_content := "", tool_calls := [], text := "", tools_logs := "" }

/-- EventProcessor.process_events restricted to its session-history effect:
consume the whole stream, and only then, when the accumulated answer is
truthy, append the buffered tool-call and tool-result messages followed by
the final assistant message (content, the run id as its id, the accumulated
additional kwargs, which the code never populates) to the history; otherwise
leave the history unchanged. -/
def process_events (history : List ChatMessage) (events : List StreamMsg)
    (run_id : String) : Except PyErr (List ChatMessage) :=
  match run_events init_ep_state events with
  | .error e => .error e
  | .ok s =>
    if s.final_content = "" then .ok history
    else .ok ((history ++ s.tool_calls) ++
              [ChatMessage.ai s.final_content [] (some run_id) []])

/-- Whether a stream element reaches the content branch with a truthy token,
the only way the accumulated visible answer can grow. -/
def is_content_token (m : StreamMsg) : Bool :=
  match m with
  | .constructorMsg k =>
    k.tool_calls.isEmpty && !str_truthy k.tool_call_id &&
      (match k.content with
       | some c => !(c == "")
       | none => false)
  | .otherMsg => false

/-! ## Title generator fallback
(my-agent/frontend/utils/title_summary.py, class DummyChain) -/

/-- A message returned by a title chain. -/
structure TitleMessage where
  content : String
deriving DecidableEq, Repr

/-- DummyChain.invoke: the stand-in substituted for the title chain when
Vertex AI initialization fails; it ignores every argument and returns an
AIMessage with content "conversation". -/
def DummyChain.invoke {α : Type} (_input : α) : TitleMessage :=
  { content := "conversation" }

/-! ## Conversational RAG agent: retrieval tool (app/agent.py) -/

/-- Retrieval fan-in constant of the agent module. -/
def TOP_K : Nat := 5

/-- A retrieved knowledge-base document: its textual content. -/
structure Document where
  page_content : String
deriving DecidableEq, Repr

/-- Modelled from the spec: format_docs lives in app/templates.py, which is
not part of the excerpted source; per the spec it renders a sequence of
reranked documents as a single text block concatenating the content of each
document in delimited sections, and an empty input yields an empty string. -/
def format_docs (docs : List Document) : String :=
  String.intercalate "\n\n" (docs.map (fun d => d.page_content))

/-- The retrieve_docs tool of app/agent.py: invoke the retriever on the
query, rerank the candidates with the compressor, format the ranked
documents, and return the (formatted text, ranked document list) pair as the
tool content and artifact. The process-wide retriever and compressor are
passed as functions; the body is exactly the sequence of the source. -/
def retrieve_docs (retriever_invoke : String → List Document)
    (compress_documents : List Document → String → List Document)
    (query : String) : String × List Document :=
  let retrieved_docs := retriever_invoke query
  let ranked_docs := compress_documents retrieved_docs query
  let formatted_docs := format_docs ranked_docs
  (formatted_docs, ranked_docs)

/-! ## Data ingestion pipeline definition
(data_ingestion/data_ingestion_pipeline/pipeline.py) -/

/-- An argument value passed to a pipeline stage: a string, integer or
boolean parameter, the scheduled-time placeholder, or the output artifact of
an upstream stage. -/
inductive ArgVal where
  | s : String → ArgVal
  | i : Int → ArgVal
  | b : Bool → ArgVal
  | scheduleTimePlaceholder
  | artifactOutputOf : String → ArgVal
deriving DecidableEq, Repr

/-- One stage invocation of the declarative pipeline: the component name,
its keyword arguments in order, and the retry count set on it. -/
structure StageCall where
  name : String
  args : List (String × ArgVal)
  num_retries : Nat
deriving DecidableEq, Repr

/-- The full resolved parameter record of one pipeline invocation. -/
structure PipelineParams where
  project_id : String
  location : String
  data_store_region : String
  data_store_id : String
  is_incremental : Bool
  look_back_days : Int
  chunk_size : Int
  chunk_overlap : Int
  destination_dataset : String
  destination_table : String
  deduped_table : String
deriving DecidableEq, Repr

/-- Python keyword-default resolution for the pipeline signature: an
invocation supplying only the four required parameters resolves every
remaining parameter to its declared default. -/
def pipeline_required_only (project_id location data_store_region data_store_id : String) :
    PipelineParams :=
  { project_id := project_id
    location := location
    data_store_region := data_store_region
    data_store_id := data_store_id
    is_incremental := true
    look_back_days := 1
    chunk_size := 1500
    chunk_overlap := 20
    destination_dataset := "stackoverflow_data"
    destination_table := "incremental_questions_embeddings"
    deduped_table := "questions_embeddings" }

/-- The process_data stage invocation, with the arguments of the source call
site and set_retry with num_retries 2. -/
def process_data_call (p : PipelineParams) : StageCall :=
  { name := "process_data"
    args := [("project_id", .s p.project_id),
             ("schedule_time", .scheduleTimePlaceholder),
             ("is_incremental", .b p.is_incremental),
             ("look_back_days", .i p.look_back_days),
             ("chunk_size", .i p.chunk_size),
             ("chunk_overlap", .i p.chunk_overlap),
             ("destination_dataset", .s p.destination_dataset),
             ("destination_table", .s p.destination_table),
             ("deduped_table", .s p.deduped_table),
             ("location", .s p.location),
             ("embedding_column", .s "embedding")]
    num_retries := 2 }

/-- The ingest_data stage invocation, consuming the process_data output
artifact, with set_retry num_retries 2. -/
def ingest_data_call (p : PipelineParams) : StageCall :=
  { name := "ingest_data"
    args := [("project_id", .s p.project_id),
             ("data_store_region", .s p.data_store_region),
             ("input_files", .artifactOutputOf "process_data"),
             ("data_store_id", .s p.data_store_id),
             ("embedding_column", .s "embedding")]
    num_retries := 2 }

/-- The declared pipeline: the two stage invocations in their strictly
sequential order. -/
def pipeline (p : PipelineParams) : List StageCall :=
  [process_data_call p, ingest_data_call p]

/-- Modelled from the spec: the managed pipeline execution service runs a
stage once and retries it on failure up to its configured retry count. Given
the success or failure of the attempt at each index, run attempts until the
first success or until 1 + num_retries attempts are exhausted; return
whether the stage succeeded and how many attempts were made. -/
def attempt_loop (outcome : Nat → Bool) : Nat → Nat → Bool × Nat
  | 0, _ => (false, 0)
  | n + 1, idx =>
    if outcome idx then (true, 1)
    else
      let r := attempt_loop outcome n (idx + 1)
      (r.1, r.2 + 1)

/-- Run one stage under the retry policy configured on it. -/
def run_stage (outcome : Nat → Bool) (stage : StageCall) : Bool × Nat :=
  attempt_loop outcome (stage.num_retries + 1) 0

/-- Modelled from the spec: whole-pipeline execution is strictly sequential
and the run fails as soon as one stage exhausts its retries. -/
def run_pipeline (outcome : String → Nat → Bool) : List StageCall → Bool
  | [] => true
  | stage :: rest =>
    if (run_stage (outcome stage.name) stage).1 then run_pipeline outcome rest
    else false

/-! ## Helper lemmas -/

theorem hasKey_false_getKey (d : Dict) (k : String) (h : hasKey d k = false) :
    getKey d k = none := by
  cases hg : getKey d k with
  | none => rfl
  | some v => simp [hasKey, hg] at h

theorem string_append_eq_empty_iff (s t : String) :
    s ++ t = "" ↔ s = "" ∧ t = "" := by
  constructor
  · intro h
    have hd := congrArg String.data h
    simp only [String.data_append] at hd
    have hnil : s.data ++ t.data = ([] : List Char) := hd
    have hp := List.append_eq_nil.mp hnil
    exact ⟨String.ext hp.1, String.ext hp.2⟩
  · rintro ⟨rfl, rfl⟩
    rfl

/-! ## Claim theorems -/

/-- C1: the claimed post-rerank truncation to the top TOP_K = 5 documents is
absent from retrieve_docs: at the failing input, a reranker returning six
documents for the query, the tool keeps all six documents as its artifact
and formats all six into its text output, the sixth document content
included, although its own docstring says the result is limited to TOP_K
(5) results. -/
theorem retrieve_docs_exceeds_top_k :
    (retrieve_docs
      (fun _ => [⟨"doc0"⟩, ⟨"doc1"⟩, ⟨"doc2"⟩, ⟨"doc3"⟩, ⟨"doc4"⟩, ⟨"doc5"⟩])
      (fun ds _ => ds) "q").2.length = 6 ∧
    TOP_K <
      (retrieve_docs
        (fun _ => [⟨"doc0"⟩, ⟨"doc1"⟩, ⟨"doc2"⟩, ⟨"doc3"⟩, ⟨"doc4"⟩, ⟨"doc5"⟩])
        (fun ds _ => ds) "q").2.length ∧
    (retrieve_docs
      (fun _ => [⟨"doc0"⟩, ⟨"doc1"⟩, ⟨"doc2"⟩, ⟨"doc3"⟩, ⟨"doc4"⟩, ⟨"doc5"⟩])
      (fun ds _ => ds) "q").1 =
      "doc0\n\ndoc1\n\ndoc2\n\ndoc3\n\ndoc4\n\ndoc5" := by
  refine ⟨rfl, by decide, rfl⟩

/-- C6: for a response body of a well-formed line, then a malformed line,
then another well-formed line, the stream loop yields exactly the two
decoded events in arrival order; the malformed line is only skipped and,
the loop being a total function, nothing is raised. -/
theorem stream_two_good_one_bad {E : Type} (decode : String → Option E)
    (good1 bad good2 : String) (e1 e2 : E)
    (h1 : decode good1 = some e1) (h2 : decode good2 = some e2)
    (hbad : decode bad = none)
    (hg1 : good1 ≠ "") (hg2 : good2 ≠ "") (hb : bad ≠ "") :
    stream_messages decode [good1, bad, good2] = [e1, e2] := by
  simp [stream_messages, hg1, hg2, hb, h1, h2, hbad]

theorem stream_two_good_one_bad_witness :
    stream_messages
      (fun s => if s = "7" then some 7 else if s = "9" then some 9 else none)
      ["7", "oops", "9"] = [7, 9] :=
  stream_two_good_one_bad
    (fun s => if s = "7" then some 7 else if s = "9" then some 9 else none)
    "7" "oops" "9" 7 9 (by decide) (by decide) (by decide)
    (by decide) (by decide) (by decide)

/-- C7: when title-chain initialization fails, the substituted fallback is
DummyChain, whose invoke returns a message with content exactly
"conversation" for every input, including an empty conversation, and, being
a total function, never raises. -/
theorem dummy_chain_invoke_conversation {α : Type} (input : α) :
    (DummyChain.invoke input).content = "conversation" := rfl

/-- C8: invoking the ingestion pipeline with only the four required
parameters resolves the remaining parameters to their declared defaults,
and those resolved defaults are exactly the values handed to the
process_data stage invocation. -/
theorem pipeline_parameter_defaults (pid loc reg dsid : String) :
    (pipeline_required_only pid loc reg dsid).is_incremental = true ∧
    (pipeline_required_only pid loc reg dsid).look_back_days = 1 ∧
    (pipeline_required_only pid loc reg dsid).chunk_size = 1500 ∧
    (pipeline_required_only pid loc reg dsid).chunk_overlap = 20 ∧
    (pipeline_required_only pid loc reg dsid).destination_dataset = "stackoverflow_data" ∧
    (pipeline_required_only pid loc reg dsid).destination_table =
      "incremental_questions_embeddings" ∧
    (pipeline_required_only pid loc reg dsid).deduped_table = "questions_embeddings" ∧
    (process_data_call (pipeline_required_only pid loc reg dsid)).args.lookup
      "is_incremental" = some (.b true) ∧
    (process_data_call (pipeline_required_only pid loc reg dsid)).args.lookup
      "look_back_days" = some (.i 1) ∧
    (process_data_call (pipeline_required_only pid loc reg dsid)).args.lookup
      "chunk_size" = some (.i 1500) ∧
    (process_data_call (pipeline_required_only pid loc reg dsid)).args.lookup
      "chunk_overlap" = some (.i 20) ∧
    (process_data_call (pipeline_required_only pid loc reg dsid)).args.lookup
      "destination_dataset" = some (.s "stackoverflow_data") ∧
    (process_data_call (pipeline_required_only pid loc reg dsid)).args.lookup
      "destination_table" = some (.s "incremental_questions_embeddings") ∧
    (process_data_call (pipeline_required_only pid loc reg dsid)).args.lookup
      "deduped_table" = some (.s "questions_embeddings") := by
  refine ⟨rfl, rfl, rfl, rfl, rfl, rfl, rfl, ?_, ?_, ?_, ?_, ?_, ?_, ?_⟩ <;>
    simp [process_data_call, pipeline_required_only, List.lookup]

/-- C9: both declared stages carry a retry policy of exactly 2 retries, in
the strictly sequential order process_data then ingest_data, and under a
persistently failing outcome each stage is attempted exactly 3 times (one
initial attempt plus 2 retries) and the whole pipeline run fails. -/
theorem pipeline_retry_ceiling (p : PipelineParams) (outcome : String → Nat → Bool)
    (hfail : ∀ stage idx, outcome stage idx = false) :
    (pipeline p).map StageCall.name = ["process_data", "ingest_data"] ∧
    (pipeline p).map StageCall.num_retries = [2, 2] ∧
    (∀ stage ∈ pipeline p, run_stage (outcome stage.name) stage = (false, 3)) ∧
    run_pipeline outcome (pipeline p) = false := by
  refine ⟨rfl, rfl, ?_, ?_⟩
  · intro stage hst
    have hcase : stage = process_data_call p ∨ stage = ingest_data_call p := by
      simpa [pipeline] using hst
    rcases hcase with rfl | rfl <;>
      simp [run_stage, attempt_loop, process_data_call, ingest_data_call, hfail]
  · simp [run_pipeline, pipeline, run_stage, attempt_loop, process_data_call,
      ingest_data_call, hfail]

theorem pipeline_retry_ceiling_witness :
    run_stage (fun _ => false) (process_data_call (pipeline_required_only "p" "l" "us" "ds")) =
      (false, 3) ∧
    run_pipeline (fun _ _ => false) (pipeline (pipeline_required_only "p" "l" "us" "ds")) =
      false := by
  have h := pipeline_retry_ceiling (pipeline_required_only "p" "l" "us" "ds")
    (fun _ _ => false) (fun _ _ => rfl)
  exact ⟨h.2.2.1 (process_data_call (pipeline_required_only "p" "l" "us" "ds"))
    (by simp [pipeline]), h.2.2.2⟩

/-- The five recognized emoji score inputs with their exact numeric
replacements, in the order of the replacement chain. -/
def emoji_scores : List (String × ℚ) :=
  [("😞", 0), ("🙁", 0.25), ("😐", 0.5), ("🙂", 0.75), ("😀", 1)]

/-- C3: for each of the five emoji score inputs, the record produced by the
normalization of log_feedback replaces the score with exactly the mapped
value, contains the supplied run id under run_id and log_type "feedback",
and no longer contains a type field. -/
theorem feedback_score_mapping (e : String) (v : ℚ) (d : Dict) (r : String)
    (hmem : (e, v) ∈ emoji_scores)
    (hscore : getKey d "score" = some (.str e))
    (htype : hasKey d "type" = true) :
    ∃ p, normalize_feedback d r = .ok p ∧
      getKey p "score" = some (.num v) ∧
      getKey p "run_id" = some (.str r) ∧
      getKey p "log_type" = some (.str "feedback") ∧
      hasKey p "type" = false := by
  have hns : normalize_score (.str e) = .num v := by
    simp only [emoji_scores, List.mem_cons, List.mem_singleton,
      Prod.mk.injEq, List.not_mem_nil, or_false] at hmem
    rcases hmem with ⟨rfl, rfl⟩ | ⟨rfl, rfl⟩ | ⟨rfl, rfl⟩ | ⟨rfl, rfl⟩ | ⟨rfl, rfl⟩ <;>
      simp [normalize_score]
  obtain ⟨w, hw⟩ := (hasKey_iff_getKey d "type").1 htype
  have hw3 : getKey (setKey (setKey (setKey d "score" (normalize_score (.str e)))
      "run_id" (.str r)) "log_type" (.str "feedback")) "type" = some w := by
    rw [getKey_setKey_ne _ _ _ _ (by decide), getKey_setKey_ne _ _ _ _ (by decide),
      getKey_setKey_ne _ _ _ _ (by decide), hw]
  refine ⟨eraseKey (setKey (setKey (setKey d "score" (normalize_score (.str e)))
      "run_id" (.str r)) "log_type" (.str "feedback")) "type", ?_, ?_, ?_, ?_, ?_⟩
  · simp only [normalize_feedback, hscore, popKey, hw3]
  · rw [getKey_eraseKey_ne _ _ _ (by decide), getKey_setKey_ne _ _ _ _ (by decide),
      getKey_setKey_ne _ _ _ _ (by decide), getKey_setKey_self, hns]
  · rw [getKey_eraseKey_ne _ _ _ (by decide), getKey_setKey_ne _ _ _ _ (by decide),
      getKey_setKey_self]
  · rw [getKey_eraseKey_ne _ _ _ (by decide), getKey_setKey_self]
  · simp [hasKey, getKey_eraseKey_self]

theorem feedback_score_mapping_witness :
    ∃ p, normalize_feedback [("score", FVal.str "😀"), ("type", FVal.str "x")] "r1" =
        .ok p ∧
      getKey p "score" = some (.num 1) ∧
      getKey p "run_id" = some (.str "r1") ∧
      getKey p "log_type" = some (.str "feedback") ∧
      hasKey p "type" = false :=
  feedback_score_mapping "😀" 1 [("score", FVal.str "😀"), ("type", FVal.str "x")] "r1"
    (by simp [emoji_scores]) (by decide) (by decide)

/-- C2: for every client constructed with a local agent or a remote
reasoning-engine handle (self.url is None, self.agent set), log_feedback
delivers the normalized feedback record through the agent handle
feedback-registration method without raising, and, over all client states,
the configuration ValueError arises exactly when neither a truthy URL nor
an agent handle is configured. -/
theorem log_feedback_agent_delegation (c : ClientState) (d p : Dict) (r : String)
    (hurl : c.url = none) (hagent : c.agent.isSome = true)
    (hnorm : normalize_feedback d r = .ok p) :
    log_feedback c d r = .ok (.registerFeedback p) ∧
    ∀ c2 : ClientState,
      log_feedback c2 d r =
        .error (.valueError "No agent or URL configured for feedback logging") ↔
      str_truthy c2.url = false ∧ c2.agent = none := by
  constructor
  · obtain ⟨a, ha⟩ := Option.isSome_iff_exists.mp hagent
    simp [log_feedback, hnorm, hurl, str_truthy, ha]
  · intro c2
    by_cases htr : str_truthy c2.url
    · simp [log_feedback, hnorm, htr]
    · cases hag : c2.agent with
      | some a => simp [log_feedback, hnorm, htr, hag]
      | none => simp [log_feedback, hnorm, htr, hag]

theorem log_feedback_agent_delegation_witness :
    log_feedback ⟨none, false, none, some "local-agent"⟩
      [("score", FVal.str "🙂"), ("type", FVal.str "t")] "r1" =
    .ok (.registerFeedback
      [("score", FVal.num 0.75), ("run_id", FVal.str "r1"),
       ("log_type", FVal.str "feedback")]) :=
  (log_feedback_agent_delegation ⟨none, false, none, some "local-agent"⟩
    [("score", FVal.str "🙂"), ("type", FVal.str "t")]
    [("score", FVal.num 0.75), ("run_id", FVal.str "r1"),
     ("log_type", FVal.str "feedback")] "r1" rfl rfl rfl).1

/-- C10: log_feedback pops the type key without a default, so for every
feedback record that carries a score but no type field it raises the
KeyError for type, whatever the configured backend and run id: callers must
supply a type field even though it is discarded. -/
theorem log_feedback_missing_type_raises (c : ClientState) (d : Dict) (r : String)
    (hscore : hasKey d "score" = true) (htype : hasKey d "type" = false) :
    log_feedback c d r = .error (.keyError "type") := by
  obtain ⟨v, hv⟩ := (hasKey_iff_getKey d "score").1 hscore
  have h3 : getKey (setKey (setKey (setKey d "score" (normalize_score v))
      "run_id" (.str r)) "log_type" (.str "feedback")) "type" = none := by
    rw [getKey_setKey_ne _ _ _ _ (by decide), getKey_setKey_ne _ _ _ _ (by decide),
      getKey_setKey_ne _ _ _ _ (by decide)]
    exact hasKey_false_getKey d "type" htype
  simp [log_feedback, normalize_feedback, hv, popKey, h3]

theorem log_feedback_missing_type_raises_witness :
    log_feedback ⟨none, false, none, some "local-agent"⟩
      [("score", FVal.str "😀")] "r2" = .error (.keyError "type") :=
  log_feedback_missing_type_raises ⟨none, false, none, some "local-agent"⟩
    [("score", FVal.str "😀")] "r2" (by decide) (by decide)

theorem process_event_keeps_final_content (s s2 : EPState) (m : StreamMsg)
    (hm : is_content_token m = false) (h : process_event s m = .ok s2) :
    s2.final_content = s.final_content := by
  cases m with
  | otherMsg =>
    simp only [process_event] at h
    cases h
    rfl
  | constructorMsg k =>
    by_cases htc : k.tool_calls.isEmpty
    · by_cases hid : str_truthy k.tool_call_id
      · cases hid2 : k.tool_call_id with
        | none => rw [hid2] at hid; simp [str_truthy] at hid
        | some tcid =>
          rw [hid2] at hid
          cases hc : k.content with
          | none => simp [process_event, htc, hid, apply_tool_result, hc, hid2] at h
          | some content =>
            simp only [process_event, htc, hid, apply_tool_result, hc, hid2,
              Bool.not_true, Bool.false_eq_true, if_false, if_true,
              Except.ok.injEq] at h
            rw [← h]
      · cases hc : k.content with
        | none =>
          simp only [process_event, htc, hid, apply_content, hc, Bool.not_true,
            Bool.false_eq_true, if_false, Except.ok.injEq] at h
          rw [← h]
        | some c =>
          have hce : c = "" := by
            simp only [is_content_token, htc, hid, hc] at hm
            simpa using hm
          simp only [process_event, htc, hid, apply_content, hc, hce,
            Bool.not_true, Bool.false_eq_true, if_false, if_true,
            Except.ok.injEq] at h
          rw [← h]
    · simp only [process_event, htc, apply_tool_calls, Bool.not_false, if_true,
        Except.ok.injEq] at h
      rw [← h]

theorem run_events_keeps_final_content (events : List StreamMsg) :
    ∀ s s2 : EPState, (∀ m ∈ events, is_content_token m = false) →
      run_events s events = .ok s2 → s2.final_content = s.final_content := by
  induction events with
  | nil =>
    intro s s2 _ h
    simp only [run_events] at h
    cases h
    rfl
  | cons m rest ih =>
    intro s s2 hall h
    simp only [run_events] at h
    cases hp : process_event s m with
    | error e => rw [hp] at h; cases h
    | ok smid =>
      rw [hp] at h
      have h1 := process_event_keeps_final_content s smid m (hall m (by simp)) hp
      have h2 := ih smid s2 (fun m2 hm2 => hall m2 (by simp [hm2])) h
      rw [h2, h1]

/-- C5: a turn whose stream produces no visible content token leaves the
session message history unmodified: no buffered tool-call or tool-result
message is committed; and by the shape of process_events the history is
only ever changed after the whole stream has been consumed. -/
theorem no_content_token_leaves_history (history : List ChatMessage)
    (events : List StreamMsg) (run_id : String) (out : List ChatMessage)
    (hnone : ∀ m ∈ events, is_content_token m = false)
    (hrun : process_events history events run_id = .ok out) :
    out = history := by
  simp only [process_events] at hrun
  cases hr : run_events init_ep_state events with
  | error e => rw [hr] at hrun; cases hrun
  | ok s =>
    rw [hr] at hrun
    have hfc : s.final_content = "" := by
      have := run_events_keeps_final_content events init_ep_state s hnone hr
      simpa [init_ep_state] using this
    simp only [hfc, if_true, Except.ok.injEq] at hrun
    exact hrun.symm

theorem no_content_token_leaves_history_witness :
    ∃ out, process_events [ChatMessage.human "q"]
        [.constructorMsg ⟨[⟨"retrieve_docs", "query=x", "call1"⟩], none, none⟩,
         .constructorMsg ⟨[], some "call1", some "result text"⟩] "r7" = .ok out ∧
      out = [ChatMessage.human "q"] :=
  ⟨[ChatMessage.human "q"], rfl,
    no_content_token_leaves_history [ChatMessage.human "q"]
      [.constructorMsg ⟨[⟨"retrieve_docs", "query=x", "call1"⟩], none, none⟩,
       .constructorMsg ⟨[], some "call1", some "result text"⟩] "r7"
      [ChatMessage.human "q"] (by decide) rfl⟩

/-- C4: for a stream of one tool-call event, one tool-result event and two
content-token events in that order, process_events appends to the session
history exactly one assistant message with empty content carrying the tool
calls, one tool-result message, and one final assistant message whose
content is the concatenation of the two tokens and whose id is the run id,
in that order. -/
theorem event_sequence_commits_in_order (history : List ChatMessage) (run_id : String)
    (tcs : List ToolCall) (tcid rc t1 t2 : String)
    (htcs : tcs ≠ []) (htcid : tcid ≠ "") (ht1 : t1 ≠ "") (ht2 : t2 ≠ "") :
    process_events history
      [.constructorMsg ⟨tcs, none, none⟩,
       .constructorMsg ⟨[], some tcid, some rc⟩,
       .constructorMsg ⟨[], none, some t1⟩,
       .constructorMsg ⟨[], none, some t2⟩] run_id =
    .ok (history ++ [ChatMessage.ai "" tcs none [],
                     ChatMessage.toolResult rc tcid,
                     ChatMessage.ai (t1 ++ t2) [] (some run_id) []]) := by
  have hne : t1 ++ t2 ≠ "" := by
    intro he
    exact ht1 ((string_append_eq_empty_iff t1 t2).mp he).1
  simp [process_events, run_events, process_event, apply_tool_calls,
    apply_tool_result, apply_content, init_ep_state, str_truthy, htcs, htcid,
    ht1, ht2, hne, String.empty_append, List.append_assoc]

theorem event_sequence_commits_in_order_witness :
    process_events [ChatMessage.human "hi"]
      [.constructorMsg ⟨[⟨"retrieve_docs", "query=x", "call1"⟩], none, none⟩,
       .constructorMsg ⟨[], some "call1", some "docs text"⟩,
       .constructorMsg ⟨[], none, some "Hello "⟩,
       .constructorMsg ⟨[], none, some "world"⟩] "run9" =
    .ok [ChatMessage.human "hi",
         ChatMessage.ai "" [⟨"retrieve_docs", "query=x", "call1"⟩] none [],
         ChatMessage.toolResult "docs text" "call1",
         ChatMessage.ai ("Hello " ++ "world") [] (some "run9") []] :=
  event_sequence_commits_in_order [ChatMessage.human "hi"] "run9"
    [⟨"retrieve_docs", "query=x", "call1"⟩] "call1" "docs text" "Hello " "world"
    (by decide) (by decide) (by decide) (by decide)
